import Mathlib

/-!
Verification development for the pytoclaw conversational-agent controller.

The definitions below are a shallow embedding of the Python sources:
* `src/pytoclaw/providers/codex_provider.py` — the Codex streaming provider
  (SSE event accumulation, retry loop, error classification and friendly
  error translation);
* `src/pytoclaw/agent/loop.py` — the agent iteration engine
  (`AgentLoop._run_agent_loop`, `AgentLoop._maybe_summarize`).

External collaborators (the JSON library, the tool executor, the context
builder, the session store, the network transport and the wall clock) are
modelled as explicit parameters, exactly as wide as the interface the
source code uses.  Machine-level details that the claims do not touch
(HTTP header construction, SSE framing of `data:` lines) are abstracted:
a `StreamEvent` is the already-JSON-decoded event payload, and an
`ErrBody.parsed` field models `json.loads` applied to the raw error body.
-/

deriving instance DecidableEq for Except

namespace PytoClaw

/-- Boolean test that `pat` is a prefix of `hay` (character lists). -/
def prefixB : List Char → List Char → Bool
  | [], _ => true
  | _ :: _, [] => false
  | p :: ps, h :: hs => p == h && prefixB ps hs

/-- Boolean substring test: `pat` occurs somewhere inside `hay`. -/
def containsB (pat : List Char) : List Char → Bool
  | [] => prefixB pat []
  | h :: hs => prefixB pat (h :: hs) || containsB pat hs

/-- `strContains s pat` models Python's `pat in s` substring test. -/
def strContains (s pat : String) : Bool :=
  containsB pat.data s.data

/-- Models Python's `str.lower()` (ASCII inputs in this code base). -/
def strLower (s : String) : String :=
  String.mk (s.data.map Char.toLower)

/-- Models Python's slice `s[:n]` (by code points). -/
def strTake (s : String) (n : Nat) : String :=
  String.mk (s.data.take n)

/-- A tool-call function payload (`FunctionCall` in `pytoclaw.models`):
`name` and the serialized `arguments` string. -/
structure FunctionCallV where
  name : String
  arguments : String
deriving DecidableEq

/-- Models a parsed structured arguments map (the result of `json.loads`
on a tool-call arguments string). -/
def ArgsMap : Type := List (String × String)

instance : DecidableEq ArgsMap := by
  unfold ArgsMap
  infer_instance

instance : Inhabited ArgsMap := ⟨([] : List (String × String))⟩

/-- A requested tool invocation (`ToolCall` in `pytoclaw.models`): an id,
an optional `function` payload, and legacy flat `name`/`arguments`
fields that `loop.py` falls back to when `function` is absent. -/
structure ToolCallV where
  id : String
  function : Option FunctionCallV
  name : String
  arguments : ArgsMap
deriving DecidableEq

/-- Token usage block of a provider response (`UsageInfo`). -/
structure UsageV where
  prompt_tokens : Nat
  completion_tokens : Nat
deriving DecidableEq

/-- A normalized provider response (`LLMResponse`).  The Python field
`tool_calls` is `None` or a list; both falsy cases are modelled by `[]`. -/
structure LLMResp where
  content : String
  tool_calls : List ToolCallV
  usage : Option UsageV
  finish_reason : String
deriving DecidableEq

/-- A transcript message (`Message` in `pytoclaw.models`). -/
structure Msg where
  role : String
  content : String
  tool_calls : List ToolCallV
  tool_call_id : String
deriving DecidableEq

/-! ### Streaming protocol handler (`CodexProvider._stream_request`)

A `StreamEvent` is one JSON-decoded `data:` payload of the SSE stream.
Fields carry the result of the corresponding `dict.get` lookups:
* `errorEv m` — a `type="error"` event; `m` is
  `event.get("message", event.get("code", "Unknown error"))`;
* `responseFailed m` — a `type="response.failed"` event; `m` is
  `event.get("response",{}).get("error",{}).get("message","Response failed")`;
* `outputItemAdded ty id call_id nm` — a `response.output_item.added`
  event with the item's `type`, optional `id`, optional `call_id`, and
  `name` (defaulted to `""` when absent);
* `responseCompleted u status` — a `response.completed`/`response.done`
  event; `u = none` models an absent or empty usage dict (falsy in
  Python), otherwise `(input_tokens, output_tokens)`; `status` is
  `response.get("status", "completed")`;
* `otherEv` — any other (or JSON-undecodable) event, skipped. -/
inductive StreamEvent where
  | errorEv (message : String)
  | responseFailed (message : String)
  | outputTextDelta (delta : String)
  | funcArgsDelta (item_id : String) (delta : String)
  | outputItemAdded (itemType : String) (id : Option String)
      (call_id : Option String) (name : String)
  | responseCompleted (usage : Option (Nat × Nat)) (status : String)
  | otherEv
deriving DecidableEq

/-- One per-item tool-call accumulator (`{"id","name","arguments"}`). -/
structure ToolAcc where
  id : String
  name : String
  arguments : String
deriving DecidableEq

/-- Accumulation state of `_stream_request`: content parts (joined into
one string), the insertion-ordered `tool_calls_by_idx` dict, the usage
dict (`none` = empty), and `stop_reason`. -/
structure StreamState where
  content : String
  toolAccs : List (String × ToolAcc)
  usage : Option (Nat × Nat)
  stopReason : String
deriving DecidableEq

/-- Initial accumulation state of `_stream_request`. -/
def initStreamState : StreamState :=
  { content := "", toolAccs := [], usage := none, stopReason := "stop" }

/-- Lookup in the insertion-ordered dict model. -/
def accLookup : List (String × ToolAcc) → String → Option ToolAcc
  | [], _ => none
  | (k0, v0) :: rest, k => if k0 = k then some v0 else accLookup rest k

/-- Python dict assignment `d[k] = v`: replace in place when the key
exists (keeping its insertion position), otherwise append. -/
def accUpdate : List (String × ToolAcc) → String → ToolAcc → List (String × ToolAcc)
  | [], k, v => [(k, v)]
  | (k0, v0) :: rest, k, v =>
      if k0 = k then (k, v) :: rest else (k0, v0) :: accUpdate rest k v

/-- One step of the `_stream_request` event loop (lines 155-201 of
`codex_provider.py`).  `error` / `response.failed` events abort the
stream by raising `RuntimeError`, modelled as `Except.error`. -/
def stepEvent (st : StreamState) : StreamEvent → Except String StreamState
  | .errorEv m => .error ("Codex stream error: " ++ m)
  | .responseFailed m => .error m
  | .outputTextDelta d =>
      .ok (if d ≠ "" then { st with content := st.content ++ d } else st)
  | .funcArgsDelta itemId d =>
      let acc : ToolAcc := match accLookup st.toolAccs itemId with
        | none => { id := itemId, name := "", arguments := "" }
        | some a => a
      .ok { st with
        toolAccs := accUpdate st.toolAccs itemId { acc with arguments := acc.arguments ++ d } }
  | .outputItemAdded ty id call_id nm =>
      if ty = "function_call" then
        let itemId := id.getD (call_id.getD "")
        .ok { st with
          toolAccs := accUpdate st.toolAccs itemId
            { id := call_id.getD itemId, name := nm, arguments := "" } }
      else .ok st
  | .responseCompleted u status =>
      let st1 := match u with
        | some p => { st with usage := some p }
        | none => st
      .ok (if status ≠ "completed" then { st1 with stopReason := status } else st1)
  | .otherEv => .ok st

/-- Run the event loop over a whole event list. -/
def processEventList : StreamState → List StreamEvent → Except String StreamState
  | st, [] => .ok st
  | st, e :: es =>
      match stepEvent st e with
      | .error m => .error m
      | .ok st1 => processEventList st1 es

/-- Build the final `LLMResponse` from the accumulated state (lines
203-227 of `codex_provider.py`): join content, turn each accumulator
into a `ToolCall` (empty arguments become `"\x7b\x7d"`), keep usage only
when the usage dict is non-empty, and pick `finish_reason`. -/
def finalizeStream (st : StreamState) : LLMResp :=
  let toolCalls := st.toolAccs.map fun p =>
    let fc : FunctionCallV :=
      { name := p.2.name
        arguments := if p.2.arguments = "" then "\x7b\x7d" else p.2.arguments }
    ({ id := p.2.id
       function := some fc
       name := ""
       arguments := (default : ArgsMap) } : ToolCallV)
  { content := st.content
    tool_calls := toolCalls
    usage := st.usage.map (fun u => { prompt_tokens := u.1, completion_tokens := u.2 })
    finish_reason := if toolCalls ≠ [] then "tool_calls" else st.stopReason }

/-- `_stream_request`'s accumulation on a 200-status stream: process all
events, then finalize.  A raised `RuntimeError` is `Except.error`. -/
def processEvents (evs : List StreamEvent) : Except String LLMResp :=
  match processEventList initStreamState evs with
  | .error m => .error m
  | .ok st => .ok (finalizeStream st)

/-! ### Retry classification (`_is_retryable`) -/

/-- Helper for the regex alternatives of the form `a.?b`: matches
`a ++ b` or `a ++ [c] ++ b` at the head of `l`, where the optional `c`
is any character except a newline (Python's `.` without DOTALL). -/
def optJoinAt (a b l : List Char) : Bool :=
  prefixB a l &&
    (prefixB b (l.drop a.length) ||
      match l.drop a.length with
      | c :: rest => c != '\n' && prefixB b rest
      | [] => false)

/-- Does one alternative of the retry regex match at the head of `l`
(`l` already lower-cased)? -/
def retryAltAt (l : List Char) : Bool :=
  optJoinAt "rate".data "limit".data l ||
    prefixB "overloaded".data l ||
    optJoinAt "service".data "unavailable".data l ||
    optJoinAt "upstream".data "connect".data l

/-- Scan for a match of the retry regex at any position. -/
def retryPatternAux : List Char → Bool
  | [] => retryAltAt []
  | c :: cs => retryAltAt (c :: cs) || retryPatternAux cs

/-- Models `re.search(r"rate.?limit|overloaded|service.?unavailable|upstream.?connect",
error_text, re.IGNORECASE)` as a Boolean. -/
def retryPatternMatch (s : String) : Bool :=
  retryPatternAux (s.data.map Char.toLower)

/-- `_is_retryable` (codex_provider.py lines 246-250): retryable when
the status is one of 429/500/502/503/504 or the body matches the
rate-limit/overload/unavailable/upstream-connect pattern. -/
def isRetryable (status : Nat) (errorText : String) : Bool :=
  if status = 429 ∨ status = 500 ∨ status = 502 ∨ status = 503 ∨ status = 504 then
    true
  else
    retryPatternMatch errorText

/-! ### Friendly error translation (`_raise_friendly_error`) -/

/-- The JSON error envelope carried by a non-200 body, as read by
`_raise_friendly_error`.  Each field is the result of the corresponding
`err.get(...)` with its default (`""` models an absent or empty string,
matching Python truthiness as used by the source). -/
structure ErrEnvelope where
  code : String
  plan_type : String
  resets_at : Option Int
  message : String
deriving DecidableEq

/-- A raw error body together with the result of `json.loads` on it:
`parsed = none` models a `json.JSONDecodeError`, otherwise the `error`
envelope extracted from the decoded object. -/
structure ErrBody where
  raw : String
  parsed : Option ErrEnvelope
deriving DecidableEq

/-- Python's `round(num / den)` for integers `num` and `den > 0`:
round-half-to-even on the exact rational value. -/
def pyRoundDiv (num den : Int) : Int :=
  let q := num.ediv den
  let r := num.emod den
  if 2 * r < den then q
  else if 2 * r > den then q + 1
  else if q.emod 2 = 0 then q else q + 1

/-- A classified terminal (non-retryable) failure of `chat`:
a `RuntimeError` with a message, or a propagated `json.JSONDecodeError`
(re-raised by `_raise_friendly_error` on an undecodable body). -/
inductive ChatErr where
  | runtime (msg : String)
  | jsonDecode
deriving DecidableEq

/-- `_raise_friendly_error` (codex_provider.py lines 253-273), as the
error value it raises.  `nowMs` models `time.time() * 1000`.  The ETA is
`max(0, round((resets_at * 1000 - nowMs) / 60000))` minutes, appended
only when `resets_at` is present and truthy (non-zero). -/
def friendlyError (nowMs : Int) (status : Nat) (body : ErrBody) : ChatErr :=
  match body.parsed with
  | none => .jsonDecode
  | some env =>
      if strContains env.code "usage_limit" || status == 429 then
        let m0 := "ChatGPT usage limit reached"
        let m1 := if env.plan_type ≠ "" then m0 ++ " (" ++ env.plan_type ++ " plan)" else m0
        let m2 := match env.resets_at with
          | some t =>
              if t ≠ 0 then
                m1 ++ ". Try again in ~" ++
                  toString (max 0 (pyRoundDiv (t * 1000 - nowMs) 60000)) ++ " min"
              else m1
          | none => m1
        .runtime m2
      else if env.message ≠ "" then
        .runtime ("Codex API error: " ++ env.message)
      else
        .runtime ("Codex API error " ++ toString status ++ ": " ++ strTake body.raw 500)

/-! ### The chat retry loop (`CodexProvider.chat`) -/

/-- Outcome of one HTTP attempt, as `_stream_request` sees it: a non-200
status with an error body, or a 200 whose SSE stream decodes to the
given event list. -/
inductive HttpAttempt where
  | failure (status : Nat) (body : ErrBody)
  | success (events : List StreamEvent)
deriving DecidableEq

/-- An exception escaping `_stream_request`: the internal
`_RetryableError`, or a terminal error. -/
inductive PyErr where
  | retryable (msg : String)
  | fatal (e : ChatErr)
deriving DecidableEq

/-- `_stream_request` for one attempt (codex_provider.py lines 112-227):
a non-200 response raises `_RetryableError` when retryable (message
`"Codex API error <status>: <body[:300]>"`), otherwise the friendly
error; a 200 response accumulates the event stream. -/
def streamRequest (nowMs : Int) : HttpAttempt → Except PyErr LLMResp
  | .failure status body =>
      if isRetryable status body.raw then
        .error (.retryable ("Codex API error " ++ toString status ++ ": " ++ strTake body.raw 300))
      else
        .error (.fatal (friendlyError nowMs status body))
  | .success evs =>
      match processEvents evs with
      | .error m => .error (.fatal (.runtime m))
      | .ok r => .ok r

/-- `MAX_RETRIES` (codex_provider.py line 33). -/
def MAX_RETRIES : Nat := 3

/-- The retry loop of `chat` (codex_provider.py lines 93-110).  `fuel`
is the number of attempts still allowed (initially `MAX_RETRIES + 1`),
`attemptIdx` the 0-based index of the next attempt, `delays` the sleeps
performed so far (in units of `BASE_DELAY_S`, i.e. the factors
`2 ^ attempt`), `lastErr` the last retryable error message.  Returns the
result together with the number of attempts performed and the delays. -/
def chatGo (nowMs : Int) (attempts : Nat → HttpAttempt) :
    Nat → Nat → List Nat → Option String → Except ChatErr LLMResp × Nat × List Nat
  | 0, attemptIdx, delays, lastErr =>
      (.error (.runtime (match lastErr with
        | some m => m
        | none => "Codex request failed")), attemptIdx, delays)
  | fuel + 1, attemptIdx, delays, _ =>
      match streamRequest nowMs (attempts attemptIdx) with
      | .ok r => (.ok r, attemptIdx + 1, delays)
      | .error (.retryable m) =>
          if fuel > 0 then
            chatGo nowMs attempts fuel (attemptIdx + 1) (delays ++ [2 ^ attemptIdx]) (some m)
          else
            (.error (.runtime m), attemptIdx + 1, delays)
      | .error (.fatal c) => (.error c, attemptIdx + 1, delays)

/-- `CodexProvider.chat`'s error handling, as a function of the
per-attempt transport outcomes: up to `MAX_RETRIES + 1` attempts, with a
delay of `BASE_DELAY_S * 2 ^ attempt` between attempts of retryable
failures.  Returns `(result, attempts used, delays slept)`. -/
def codexChat (nowMs : Int) (attempts : Nat → HttpAttempt) :
    Except ChatErr LLMResp × Nat × List Nat :=
  chatGo nowMs attempts (MAX_RETRIES + 1) 0 [] none

/-! ### The agent iteration engine (`AgentLoop._run_agent_loop`) -/

/-- One session owned by the session store: chronological history and a
rolling summary. -/
structure SessionState where
  history : List Msg
  summary : String
deriving DecidableEq

/-- The session store, keyed by session key.  `save` persists to disk
and is a no-op on the in-memory state modelled here. -/
def Store : Type := String → SessionState

/-- Point update of the store at one key. -/
def updStore (st : Store) (k : String) (s : SessionState) : Store :=
  fun k0 => if k0 = k then s else st k0

/-- `sessions.add_message(key, role, text)`: append a plain message. -/
def addMsgStore (st : Store) (k role text : String) : Store :=
  updStore st k
    { history := (st k).history ++ [{ role := role, content := text, tool_calls := [], tool_call_id := "" }]
      summary := (st k).summary }

/-- `sessions.add_full_message(key, msg)`: append a full message. -/
def addFullStore (st : Store) (k : String) (m : Msg) : Store :=
  updStore st k
    { history := (st k).history ++ [m], summary := (st k).summary }

/-- `ProcessOptions` (loop.py lines 28-37). -/
structure Opts where
  session_key : String
  channel : String
  chat_id : String
  user_message : String
  default_response : String
  enable_summary : Bool
  send_response : Bool
  no_history : Bool
deriving DecidableEq

/-- The read-only `AgentInstance` capabilities consumed by the engine.
The provider is scripted by call index (successive network outcomes) and
still receives the message list it was called with; `execute` models
`tools.execute(name, args, channel, chat_id).for_llm`; `build_messages`
models the external context builder applied to
`(history, summary, current_message, channel, chat_id)`. -/
structure Agent where
  model : String
  max_iterations : Nat
  provider : Nat → List Msg → Except String LLMResp
  execute : String → ArgsMap → String → String → String
  build_messages : List Msg → String → String → String → String → List Msg

/-- Python `a or b` on strings (empty string is falsy). -/
def pyOr (a b : String) : String :=
  if a = "" then b else a

/-- The synthesized text when a provider call raises (loop.py lines
143-153): a model-guidance message when the error text contains `"404"`
or (lower-cased) `"model"`, else a generic provider-error message. -/
def provErrText (model errorMsg : String) : String :=
  if strContains errorMsg "404" || strContains (strLower errorMsg) "model" then
    "Model error: " ++ errorMsg ++ "\n\nCurrent model: " ++ model ++
      ". Use /model to check, or re-run `pytoclaw onboard` to reconfigure."
  else
    "LLM provider error: " ++ errorMsg

/-- A Python exception escaping `_run_agent_loop`: the `NameError` from
reading the never-assigned `response` in the exhaustion branch, or a
`json.JSONDecodeError` from parsing a tool call's arguments string. -/
inductive LoopExit where
  | unboundResponse
  | argsParseError (args : String)
deriving DecidableEq

/-- `tool_name = tc.function.name if tc.function else tc.name`
(loop.py line 173). -/
def toolNameOf (tc : ToolCallV) : String :=
  match tc.function with
  | some f => f.name
  | none => tc.name

/-- `tool_args = json.loads(tc.function.arguments) if tc.function and
tc.function.arguments else tc.arguments` (loop.py lines 174-178): `none`
models an escaping `json.JSONDecodeError`. -/
def resolveArgs (pa : String → Option ArgsMap) (tc : ToolCallV) : Option ArgsMap :=
  match tc.function with
  | some f => if f.arguments ≠ "" then pa f.arguments else some tc.arguments
  | none => some tc.arguments

/-- The serialized arguments string a `json.JSONDecodeError` is raised
on (only reachable when `tc.function` is present with non-empty
arguments). -/
def argStrOf (tc : ToolCallV) : String :=
  match tc.function with
  | some f => f.arguments
  | none => ""

/-- The tool-call processing of one iteration (loop.py lines 172-192):
resolve the name, parse the serialized arguments via the JSON library
`pa` (a `json.JSONDecodeError` escapes as `.argsParseError`), run the
executor, and append the `tool` message to the transcript and (unless
`no_history`) the session store. -/
def processToolCalls (pa : String → Option ArgsMap) (ag : Agent) (opts : Opts) :
    List ToolCallV → List Msg → Store → Except LoopExit (List Msg × Store)
  | [], msgs, st => .ok (msgs, st)
  | tc :: rest, msgs, st =>
      match resolveArgs pa tc with
      | none => .error (.argsParseError (argStrOf tc))
      | some args =>
          let result := ag.execute (toolNameOf tc) args opts.channel opts.chat_id
          let tmsg : Msg := { role := "tool", content := result, tool_calls := [], tool_call_id := tc.id }
          let msgs1 := msgs ++ [tmsg]
          let st1 := if opts.no_history then st else addFullStore st opts.session_key tmsg
          processToolCalls pa ag opts rest msgs1 st1

/-- The bounded iteration loop of `_run_agent_loop` (loop.py lines
139-195), by remaining iterations.  Arguments: remaining iterations,
provider call index, transcript, store, and the last provider response
(`none` until the first call returns, modelling the unassigned Python
local).  Returns `(response_text, transcript, store, next call index)`;
the fuel-0 case is Python's `for ... else` exhaustion branch, which
reads `response` and raises `NameError` when no iteration ever ran. -/
def runIter (pa : String → Option ArgsMap) (ag : Agent) (opts : Opts) :
    Nat → Nat → List Msg → Store → Option LLMResp →
    Except LoopExit (String × List Msg × Store × Nat)
  | 0, c, msgs, st, last =>
      match last with
      | none => .error .unboundResponse
      | some r => .ok (pyOr r.content (pyOr opts.default_response "(max iterations reached)"), msgs, st, c)
  | n + 1, c, msgs, st, _ =>
      match ag.provider c msgs with
      | .error e => .ok (provErrText ag.model e, msgs, st, c + 1)
      | .ok r =>
          if r.tool_calls = [] then
            .ok (r.content, msgs, st, c + 1)
          else
            let amsg : Msg := { role := "assistant", content := r.content, tool_calls := r.tool_calls, tool_call_id := "" }
            let msgs1 := msgs ++ [amsg]
            let st1 := if opts.no_history then st else addFullStore st opts.session_key amsg
            match processToolCalls pa ag opts r.tool_calls msgs1 st1 with
            | .error e => .error e
            | .ok (msgs2, st2) => runIter pa ag opts n (c + 1) msgs2 st2 (some r)

/-- The summarization prompt (loop.py lines 228-233): the fixed preamble
followed by one `[role]: content[:500]` line per message. -/
def mkSummaryPrompt (msgs : List Msg) : String :=
  msgs.foldl
    (fun acc m => acc ++ "[" ++ m.role ++ "]: " ++ strTake m.content 500 ++ "\n")
    "Summarize the following conversation concisely, capturing key facts, decisions, and context:\n\n"

/-- `SUMMARIZE_THRESHOLD` (`self._summarize_threshold`, loop.py line 54). -/
def summarizeThreshold : Nat := 20

/-- `AgentLoop._maybe_summarize` (loop.py lines 217-251): below the
20-message threshold do nothing; otherwise summarize all but the last 4
messages through one provider call (call index `c`), merge with any
prior summary using a blank-line separator, and keep only the last 4
messages.  A provider failure is caught and leaves the store unchanged. -/
def maybeSummarize (ag : Agent) (c : Nat) (key : String) (st : Store) : Store :=
  let sess := st key
  if sess.history.length < summarizeThreshold then st
  else
    let toSummarize := sess.history.take (sess.history.length - 4)
    if toSummarize = [] then st
    else
      let prompt := mkSummaryPrompt toSummarize
      match ag.provider c [{ role := "user", content := prompt, tool_calls := [], tool_call_id := "" }] with
      | .error _ => st
      | .ok r =>
          let newSummary := if sess.summary ≠ "" then sess.summary ++ "\n\n" ++ r.content else r.content
          updStore st key
            { history := sess.history.drop (sess.history.length - 4)
              summary := newSummary }

/-- `AgentLoop._run_agent_loop` (loop.py lines 115-206): context load
(history empty under `no_history`, the summary fetched unconditionally),
user-message append, context build, the bounded iteration loop, the
final-response persist, and the end-of-turn summarization.  An escaping
Python exception is `Except.error`. -/
def runAgentLoop (pa : String → Option ArgsMap) (ag : Agent) (opts : Opts) (st0 : Store) :
    Except LoopExit (String × Store) :=
  let key := opts.session_key
  let history := if opts.no_history then [] else (st0 key).history
  let summary := (st0 key).summary
  let st1 := if opts.no_history then st0 else addMsgStore st0 key "user" opts.user_message
  let messages := ag.build_messages history summary opts.user_message opts.channel opts.chat_id
  match runIter pa ag opts ag.max_iterations 0 messages st1 none with
  | .error e => .error e
  | .ok (text, _msgs, st2, c) =>
      let st3 := if text = "" then st2
        else if opts.no_history then st2
        else addMsgStore st2 key "assistant" text
      let st4 := if opts.enable_summary then maybeSummarize ag c key st3 else st3
      .ok (text, st4)

/-! ### Observation helpers (projections used to state closed facts
about loop outcomes without comparing function-typed stores) -/

/-- The final text of a turn, `none` when an exception escaped. -/
def resultText (r : Except LoopExit (String × Store)) : Option String :=
  match r with
  | .ok (t, _) => some t
  | .error _ => none

/-- The stored history length at a key after a turn. -/
def histLenAt (r : Except LoopExit (String × Store)) (k : String) : Option Nat :=
  match r with
  | .ok (_, st) => some ((st k).history.length)
  | .error _ => none

/-- The argument string of an escaped `json.JSONDecodeError`, if any. -/
def escapedArgsError (r : Except LoopExit (String × Store)) : Option String :=
  match r with
  | .error (.argsParseError s) => some s
  | _ => none

/-! ### Concrete fixtures used by witnesses and counterexamples -/

/-- Fixture: an error body whose text matches no retry pattern and does
not decode as JSON. -/
def bodyOops : ErrBody := { raw := "oops", parsed := none }

/-- Fixture: the empty successful response. -/
def respEmpty : LLMResp := { content := "", tool_calls := [], usage := none, finish_reason := "stop" }

/-- Fixture: the raw 429 quota body of the C6 scenario. -/
def raw429 : String :=
  "\x7b\"error\":\x7b\"code\":\"usage_limit_reached\",\"plan_type\":\"plus\",\"resets_at\":1760000000\x7d\x7d"

/-- Fixture: the same body together with its JSON decoding. -/
def body429 : ErrBody :=
  { raw := raw429
    parsed := some { code := "usage_limit_reached", plan_type := "plus", resets_at := some 1760000000, message := "" } }

/-- Fixture: a JSON library that rejects every arguments string. -/
def paNone : String → Option ArgsMap := fun _ => none

/-- Fixture: the trivial context builder used by concrete runs: the
current message as a single user message. -/
def buildSimple : List Msg → String → String → String → String → List Msg :=
  fun _ _ cur _ _ => [{ role := "user", content := cur, tool_calls := [], tool_call_id := "" }]

/-- Fixture: baseline options for a history-keeping turn on key `k`. -/
def opts4 : Opts :=
  { session_key := "k", channel := "", chat_id := "", user_message := "hi",
    default_response := "", enable_summary := false, send_response := false, no_history := false }

/-- Fixture: an empty session store. -/
def st0 : Store := fun _ => { history := [], summary := "" }

/-- Fixture: a final response with content and no tool calls. -/
def rf : LLMResp := { content := "done", tool_calls := [], usage := none, finish_reason := "stop" }

/-- Fixture: an agent whose provider always raises. -/
def ag7 : Agent :=
  { model := "m", max_iterations := 1
    provider := fun _ _ => .error "boom 404"
    execute := fun n _ _ _ => n
    build_messages := buildSimple }

/-- Fixture: an agent with `max_iterations = 0`. -/
def ag10 : Agent :=
  { model := "m", max_iterations := 0
    provider := fun _ _ => .ok rf
    execute := fun n _ _ _ => n
    build_messages := buildSimple }

/-- Fixture: a tool call whose serialized arguments do not parse. -/
def tc9 : ToolCallV :=
  { id := "t1", function := some { name := "f", arguments := "not json" }, name := "", arguments := (default : ArgsMap) }

/-- Fixture: an agent whose first response requests `tc9`. -/
def ag9 : Agent :=
  { model := "m", max_iterations := 1
    provider := fun _ _ => .ok { content := "", tool_calls := [tc9], usage := none, finish_reason := "tool_calls" }
    execute := fun n _ _ _ => n
    build_messages := buildSimple }

/-- Fixture: a plain user message. -/
def msgU : Msg := { role := "user", content := "x", tool_calls := [], tool_call_id := "" }

/-- Fixture: a store holding 20 messages and a prior summary. -/
def st5 : Store := fun _ => { history := List.replicate 20 msgU, summary := "old" }

/-- Fixture: an agent whose provider answers every call with `"new"`. -/
def ag5 : Agent :=
  { model := "m", max_iterations := 1
    provider := fun _ _ => .ok { content := "new", tool_calls := [], usage := none, finish_reason := "stop" }
    execute := fun n _ _ _ => n
    build_messages := buildSimple }

/-- Fixture: an agent that echoes the whole built context back and
whose context builder seeds the lone message with the summary. -/
def ag8 : Agent :=
  { model := "m", max_iterations := 1
    provider := fun _ m => .ok { content := String.join (m.map (fun x => x.content)), tool_calls := [], usage := none, finish_reason := "stop" }
    execute := fun n _ _ _ => n
    build_messages := fun _ s cur _ _ => [{ role := "user", content := s ++ cur, tool_calls := [], tool_call_id := "" }] }

/-- Fixture: options for a `no_history` turn. -/
def opts8 : Opts :=
  { session_key := "k", channel := "", chat_id := "", user_message := "hi",
    default_response := "", enable_summary := false, send_response := false, no_history := true }

/-- Fixture: an empty-history store with a non-empty stored summary. -/
def stS : Store := fun _ => { history := [], summary := "S" }

/-- Fixture: the same store with an empty summary. -/
def stE : Store := fun _ => { history := [], summary := "" }

/-- Fixture: a tool call with empty serialized arguments (so the
structured `arguments` map is used and no JSON parse happens). -/
def tcA : ToolCallV :=
  { id := "t1", function := some { name := "a", arguments := "" }, name := "", arguments := (default : ArgsMap) }

/-- Fixture: second tool call of the two-call response. -/
def tcB : ToolCallV :=
  { id := "t2", function := some { name := "b", arguments := "" }, name := "", arguments := (default : ArgsMap) }

/-- Fixture: a response carrying two tool calls in one iteration. -/
def r0 : LLMResp := { content := "", tool_calls := [tcA, tcB], usage := none, finish_reason := "tool_calls" }

/-- Fixture: the agent of the two-tool-call run. -/
def ag4 : Agent :=
  { model := "m", max_iterations := 2
    provider := fun i _ => if i = 0 then .ok r0 else .ok rf
    execute := fun n _ _ _ => "res-" ++ n
    build_messages := buildSimple }

/-- Fixture: a single-tool-call response for the C4 witness run. -/
def rW : LLMResp := { content := "", tool_calls := [tcA], usage := none, finish_reason := "tool_calls" }

/-- Fixture: the agent of the single-tool-call witness run. -/
def agW4 : Agent :=
  { model := "m", max_iterations := 2
    provider := fun i _ => if i = 0 then .ok rW else .ok rf
    execute := fun n _ _ _ => "res-" ++ n
    build_messages := buildSimple }

/-! ### Helper lemmas -/

theorem empty_append_str (s : String) : "" ++ s = s := by
  cases s
  rfl

theorem prefixB_append (pat hay t : List Char) (h : prefixB pat hay = true) :
    prefixB pat (hay ++ t) = true := by
  induction pat generalizing hay with
  | nil => simp [prefixB]
  | cons p ps ih =>
      cases hay with
      | nil => simp [prefixB] at h
      | cons a hs =>
          simp only [prefixB, Bool.and_eq_true] at h
          simp only [List.cons_append, prefixB, Bool.and_eq_true]
          exact ⟨h.1, ih hs h.2⟩

theorem containsB_append_left (pat hay t : List Char) (h : containsB pat hay = true) :
    containsB pat (hay ++ t) = true := by
  induction hay with
  | nil =>
      simp only [containsB] at h
      cases pat with
      | nil =>
          cases t with
          | nil => simp [containsB, prefixB]
          | cons a rest => simp [containsB, prefixB]
      | cons p ps => simp [prefixB] at h
  | cons a hs ih =>
      simp only [containsB, Bool.or_eq_true] at h
      simp only [List.cons_append, containsB, Bool.or_eq_true]
      cases h with
      | inl hp => exact Or.inl (by simpa using prefixB_append pat (a :: hs) t hp)
      | inr hc => exact Or.inr (ih hc)

theorem strContains_append_left (s t pat : String) (h : strContains s pat = true) :
    strContains (s ++ t) pat = true := by
  have hd : (s ++ t).data = s.data ++ t.data := by
    cases s; cases t; rfl
  unfold strContains at h ⊢
  rw [hd]
  exact containsB_append_left pat.data s.data t.data h

theorem updStore_same (st : Store) (k : String) (s : SessionState) :
    updStore st k s k = s := by
  simp [updStore]

theorem addFullStore_at (st : Store) (k : String) (m : Msg) :
    addFullStore st k m k =
      { history := (st k).history ++ [m], summary := (st k).summary } := by
  simp [addFullStore, updStore_same]

theorem addMsgStore_at (st : Store) (k role text : String) :
    addMsgStore st k role text k =
      { history := (st k).history ++
          [{ role := role, content := text, tool_calls := [], tool_call_id := "" }]
        summary := (st k).summary } := by
  simp [addMsgStore, updStore_same]

theorem accUpdate_absent (l : List (String × ToolAcc)) (k : String) (v : ToolAcc)
    (h : accLookup l k = none) : accUpdate l k v = l ++ [(k, v)] := by
  induction l with
  | nil => simp [accUpdate]
  | cons p rest ih =>
      obtain ⟨k0, v0⟩ := p
      by_cases hk : k0 = k
      · simp [accLookup, hk] at h
      · simp only [accLookup, hk, if_neg hk] at h
        simp [accUpdate, hk, ih h]

/-- With `no_history`, tool-call processing never touches the store and
its outcome does not depend on it. -/
theorem processToolCalls_no_history (pa : String → Option ArgsMap) (ag : Agent) (opts : Opts)
    (h : opts.no_history = true) :
    ∀ (tcs : List ToolCallV) (msgs : List Msg) (st st' : Store),
      processToolCalls pa ag opts tcs msgs st =
        (processToolCalls pa ag opts tcs msgs st').map (fun p => (p.1, st)) := by
  intro tcs
  induction tcs with
  | nil => intro msgs st st'; simp [processToolCalls, Except.map]
  | cons tc rest ih =>
      intro msgs st st'
      simp only [processToolCalls]
      cases resolveArgs pa tc with
      | none => simp [Except.map]
      | some args =>
          simp only [h, if_pos rfl]
          exact ih _ st st'

/-- With `no_history`, the iteration loop never touches the store and
its outcome does not depend on it. -/
theorem runIter_no_history (pa : String → Option ArgsMap) (ag : Agent) (opts : Opts)
    (h : opts.no_history = true) :
    ∀ (n c : Nat) (msgs : List Msg) (st st' : Store) (last : Option LLMResp),
      runIter pa ag opts n c msgs st last =
        (runIter pa ag opts n c msgs st' last).map (fun q => (q.1, q.2.1, st, q.2.2.2)) := by
  intro n
  induction n with
  | zero =>
      intro c msgs st st' last
      cases last with
      | none => simp [runIter, Except.map]
      | some r => simp [runIter, Except.map]
  | succ n ih =>
      intro c msgs st st' last
      simp only [runIter]
      cases ag.provider c msgs with
      | error e => simp [Except.map]
      | ok r =>
          by_cases htc : r.tool_calls = []
          · simp [htc, Except.map]
          · simp only [htc, if_neg htc, h, if_true, ite_true]
            rw [processToolCalls_no_history pa ag opts h r.tool_calls _ st st']
            cases hp : processToolCalls pa ag opts r.tool_calls
                (msgs ++ [{ role := "assistant", content := r.content,
                            tool_calls := r.tool_calls, tool_call_id := "" }]) st' with
            | error e => simp [Except.map]
            | ok p =>
                obtain ⟨msgs2, st2⟩ := p
                simp only [Except.map]
                exact ih (c + 1) msgs2 st st2 (some r)

/-- Processing a single successfully-parsed tool call appends one
`tool` message to the transcript and to the store. -/
theorem processToolCalls_single (pa : String → Option ArgsMap) (ag : Agent) (opts : Opts)
    (hnh : opts.no_history = false) (tc : ToolCallV) (a : ArgsMap) (msgs : List Msg) (st : Store)
    (h : resolveArgs pa tc = some a) :
    processToolCalls pa ag opts [tc] msgs st =
      .ok (msgs ++ [{ role := "tool", content := ag.execute (toolNameOf tc) a opts.channel opts.chat_id, tool_calls := [], tool_call_id := tc.id }],
        addFullStore st opts.session_key
          { role := "tool", content := ag.execute (toolNameOf tc) a opts.channel opts.chat_id, tool_calls := [], tool_call_id := tc.id }) := by
  simp [processToolCalls, h, hnh]

/-- A scripted run of the iteration loop with `no_history = false`:
`resps` are the successive responses, each carrying exactly one
parseable tool call, and `final` is the first response without tool
calls.  The loop ends with `final.content` after `resps.length + 1`
provider calls, having appended 2 messages to the session per tool
round (the assistant request and the tool result). -/
theorem runIter_script (pa : String → Option ArgsMap) (ag : Agent) (opts : Opts)
    (hnh : opts.no_history = false) :
    ∀ (resps : List LLMResp) (final : LLMResp) (c n : Nat) (msgs : List Msg) (st : Store)
      (last : Option LLMResp),
      resps.length < n →
      (∀ (i : Nat) (hi : i < resps.length) (m : List Msg),
        ag.provider (c + i) m = .ok (resps.get ⟨i, hi⟩)) →
      (∀ m, ag.provider (c + resps.length) m = .ok final) →
      (∀ r ∈ resps, ∃ tc a, r.tool_calls = [tc] ∧ resolveArgs pa tc = some a) →
      final.tool_calls = [] →
      ∃ (msgs' : List Msg) (st' : Store),
        runIter pa ag opts n c msgs st last = .ok (final.content, msgs', st', c + resps.length + 1)
        ∧ (st' opts.session_key).history.length =
            (st opts.session_key).history.length + 2 * resps.length := by
  intro resps
  induction resps with
  | nil =>
      intro final c n msgs st last hn hscript hfinal hsingle hend
      cases n with
      | zero => exact absurd hn (Nat.not_lt_zero _)
      | succ n =>
          refine ⟨msgs, st, ?_, by simp⟩
          have hf := hfinal msgs
          simp only [List.length_nil, Nat.add_zero] at hf
          simp [runIter, hf, hend]
  | cons r rest ih =>
      intro final c n msgs st last hn hscript hfinal hsingle hend
      cases n with
      | zero => exact absurd hn (Nat.not_lt_zero _)
      | succ n =>
          have h0 : ag.provider c msgs = .ok r := by
            have h00 := hscript 0 (by simp) msgs
            simpa using h00
          obtain ⟨tc, a, htc, hres⟩ := hsingle r (by simp)
          have hne : r.tool_calls ≠ [] := by simp [htc]
          have hlen1 : rest.length < n := by
            simpa using Nat.lt_of_succ_lt_succ (by simpa using hn)
          have hscript' : ∀ (i : Nat) (hi : i < rest.length) (m : List Msg),
              ag.provider (c + 1 + i) m = .ok (rest.get ⟨i, hi⟩) := by
            intro i hi m
            have hx := hscript (i + 1) (by simpa using Nat.succ_lt_succ hi) m
            have hrw : c + (i + 1) = c + 1 + i := by omega
            rw [hrw] at hx
            simpa using hx
          have hfinal' : ∀ m, ag.provider (c + 1 + rest.length) m = .ok final := by
            intro m
            have hx := hfinal m
            have hrw : c + (r :: rest).length = c + 1 + rest.length := by
              simp; omega
            rw [hrw] at hx
            exact hx
          have hsingle' : ∀ r' ∈ rest, ∃ tc a, r'.tool_calls = [tc] ∧ resolveArgs pa tc = some a := by
            intro r' hr'
            exact hsingle r' (by simp [hr'])
          set amsg : Msg :=
            { role := "assistant", content := r.content, tool_calls := [tc], tool_call_id := "" } with hamsg
          set tmsg : Msg :=
            { role := "tool", content := ag.execute (toolNameOf tc) a opts.channel opts.chat_id, tool_calls := [], tool_call_id := tc.id } with htmsg
          obtain ⟨msgs', st', heq, hlen⟩ := ih final (c + 1) n
            (msgs ++ [amsg] ++ [tmsg])
            (addFullStore (addFullStore st opts.session_key amsg) opts.session_key tmsg)
            (some r) hlen1 hscript' hfinal' hsingle' hend
          refine ⟨msgs', st', ?_, ?_⟩
          · have hstep : runIter pa ag opts (n + 1) c msgs st last =
                runIter pa ag opts n (c + 1) (msgs ++ [amsg] ++ [tmsg])
                  (addFullStore (addFullStore st opts.session_key amsg) opts.session_key tmsg)
                  (some r) := by
              simp only [runIter, h0, hne, if_neg hne, hnh, if_false, ite_false]
              rw [htc]
              rw [processToolCalls_single pa ag opts hnh tc a _ _ hres]
              simp [hamsg, htmsg]
            rw [hstep, heq]
            have hrw : c + 1 + rest.length + 1 = c + (r :: rest).length + 1 := by
              simp; omega
            rw [hrw]
          · rw [hlen]
            rw [addFullStore_at, addFullStore_at]
            simp only [List.length_append, List.length_cons, List.length_singleton]
            simp
            omega

/-! ### Claim theorems -/

/-- C1: for the Codex provider's chat operation, a failure is retryable
exactly when the HTTP status is one of 429/500/502/503/504 or the error
body matches the rate-limit/overload/unavailable/upstream-connect
pattern case-insensitively; a retryable failure is retried up to 3 times
(4 total attempts) with delay `BASE_DELAY_S * 2 ^ attempt` between
attempts (the delay list shows the factors `2 ^ attempt`), so that 3
consecutive 503 responses followed by a 200 on the 4th attempt yield a
successful `LLMResponse`, 4 consecutive 503 responses raise a terminal
error, and a single 400 response (whose body does not itself match the
retry pattern — the claim's own retryability condition) is raised
immediately after one attempt with no delay. -/
theorem C1_retry_policy (nowMs : Int) (body : ErrBody) (evs : List StreamEvent) (r : LLMResp)
    (hev : processEvents evs = .ok r)
    (hpat : retryPatternMatch body.raw = false) :
    (∀ (s : Nat) (t : String), isRetryable s t = true ↔
        (s = 429 ∨ s = 500 ∨ s = 502 ∨ s = 503 ∨ s = 504 ∨ retryPatternMatch t = true))
    ∧ codexChat nowMs (fun i => if i < 3 then .failure 503 body else .success evs) = (.ok r, 4, [1, 2, 4])
    ∧ codexChat nowMs (fun _ => .failure 503 body) =
        (.error (.runtime ("Codex API error 503: " ++ strTake body.raw 300)), 4, [1, 2, 4])
    ∧ codexChat nowMs (fun _ => .failure 400 body) = (.error (friendlyError nowMs 400 body), 1, []) := by
  refine ⟨?_, ?_, ?_, ?_⟩
  · intro s t
    unfold isRetryable
    split
    next h => simp only [true_iff]; tauto
    next h =>
      constructor
      · intro ht
        exact Or.inr (Or.inr (Or.inr (Or.inr (Or.inr ht))))
      · rintro (h1 | h1 | h1 | h1 | h1 | h1)
        · exact absurd (Or.inl h1) h
        · exact absurd (Or.inr (Or.inl h1)) h
        · exact absurd (Or.inr (Or.inr (Or.inl h1))) h
        · exact absurd (Or.inr (Or.inr (Or.inr (Or.inl h1)))) h
        · exact absurd (Or.inr (Or.inr (Or.inr (Or.inr h1)))) h
        · exact h1
  · simp [codexChat, MAX_RETRIES, chatGo, streamRequest, isRetryable, hev]
  · simp [codexChat, MAX_RETRIES, chatGo, streamRequest, isRetryable]
    have hfold : "Codex API error " ++ toString (503 : Nat) ++ ": " = "Codex API error 503: " := by decide
    rw [hfold]
  · simp [codexChat, MAX_RETRIES, chatGo, streamRequest, isRetryable, hpat]

/-- C1 witness: the retry policy instantiated at a concrete body and an
empty success stream. -/
theorem C1_retry_policy_witness :
    codexChat 0 (fun i => if i < 3 then .failure 503 bodyOops else .success []) =
      (.ok respEmpty, 4, [1, 2, 4])
    ∧ codexChat 0 (fun _ => .failure 503 bodyOops) =
        (.error (.runtime ("Codex API error 503: " ++ strTake bodyOops.raw 300)), 4, [1, 2, 4]) :=
  have h := C1_retry_policy 0 bodyOops [] respEmpty rfl (by decide)
  ⟨h.2.1, h.2.2.1⟩

/-- C2: a stream of `output_item.added` (function_call, id `x`, name
`search`) followed by `function_call_arguments.delta` (item_id `x`,
delta the serialized arguments) yields exactly one `ToolCall` with name
`search` and those arguments, and `finish_reason = "tool_calls"`; and a
`function_call_arguments.delta` whose item identifier has no registered
accumulator lazily creates one (appended to the dict), so its deltas
still produce a `ToolCall` at stream end. -/
theorem C2_tool_call_stream :
    (processEvents
        [.outputItemAdded "function_call" (some "x") none "search",
         .funcArgsDelta "x" "\x7b\"q\":\"a\"\x7d"] =
      .ok { content := ""
            tool_calls := [{ id := "x", function := some { name := "search", arguments := "\x7b\"q\":\"a\"\x7d" }, name := "", arguments := (default : ArgsMap) }]
            usage := none
            finish_reason := "tool_calls" })
    ∧ (∀ (st : StreamState) (i d : String),
        accLookup st.toolAccs i = none →
          processEventList st [.funcArgsDelta i d] =
            .ok { st with toolAccs := st.toolAccs ++ [(i, { id := i, name := "", arguments := d })] }
          ∧ (finalizeStream { st with toolAccs := st.toolAccs ++ [(i, { id := i, name := "", arguments := d })] }).tool_calls.length = st.toolAccs.length + 1
          ∧ (finalizeStream { st with toolAccs := st.toolAccs ++ [(i, { id := i, name := "", arguments := d })] }).finish_reason = "tool_calls") := by
  constructor
  · decide
  · intro st i d h
    refine ⟨?_, ?_, ?_⟩
    · simp only [processEventList, stepEvent, h]
      rw [accUpdate_absent _ _ _ h]
      rw [empty_append_str]
    · simp [finalizeStream]
    · simp [finalizeStream]

/-- C2 witness: the lazy-accumulator branch instantiated at the initial
state with an unregistered item identifier. -/
theorem C2_tool_call_stream_witness :
    processEventList initStreamState [.funcArgsDelta "y" "z"] =
      .ok { initStreamState with toolAccs := [("y", { id := "y", name := "", arguments := "z" })] } :=
  (C2_tool_call_stream.2 initStreamState "y" "z" rfl).1

/-- C3: the events `output_text.delta("Hel")`, `output_text.delta("lo")`,
`response.completed` with usage `(input 5, output 2)` accumulate to
content `"Hello"`, usage `(prompt 5, completion 2)` and finish reason
`"stop"`; in general the final finish reason is `"tool_calls"` exactly
when at least one tool call was accumulated and otherwise the terminal
status, whose default is `"stop"`. -/
theorem C3_text_stream_accumulation :
    (processEvents [.outputTextDelta "Hel", .outputTextDelta "lo",
        .responseCompleted (some (5, 2)) "completed"] =
      .ok { content := "Hello", tool_calls := [], usage := some { prompt_tokens := 5, completion_tokens := 2 }, finish_reason := "stop" })
    ∧ (∀ st : StreamState,
        (finalizeStream st).finish_reason = if st.toolAccs = [] then st.stopReason else "tool_calls")
    ∧ initStreamState.stopReason = "stop" := by
  refine ⟨by decide, ?_, rfl⟩
  intro st
  cases h : st.toolAccs with
  | nil => simp [finalizeStream, h]
  | cons p rest => simp [finalizeStream, h]

/-- C4 counterexample: a turn whose single tool round carries TWO tool
calls appends 1 user + 1 assistant + 2 tool + 1 final assistant = 5
messages — an odd increase, while the claimed `2 + 2 * k` is always
even under either reading of "tool round-trip". -/
theorem C4_counterexample :
    histLenAt (runAgentLoop (fun _ => none) ag4 opts4 st0) "k" = some 5
    ∧ resultText (runAgentLoop (fun _ => none) ag4 opts4 st0) = some "done"
    ∧ r0.tool_calls.length = 2
    ∧ 5 % 2 = 1 :=
  ⟨rfl, rfl, rfl, rfl⟩

/-- C4 (amended): after one successful turn with `no_history = false` in
which every tool-carrying response holds exactly one parseable tool
call, the final response has no tool calls and non-empty content, and
end-of-turn summarization is disabled, the session history grows by
exactly `2 + 2 * (number of tool round-trips)` (user + final assistant,
plus assistant-request + tool-result per round). -/
theorem C4_history_growth (pa : String → Option ArgsMap) (ag : Agent) (opts : Opts) (st : Store)
    (resps : List LLMResp) (final : LLMResp)
    (hnh : opts.no_history = false) (hsum : opts.enable_summary = false)
    (hn : resps.length < ag.max_iterations)
    (hscript : ∀ (i : Nat) (hi : i < resps.length) (m : List Msg),
      ag.provider i m = .ok (resps.get ⟨i, hi⟩))
    (hfinal : ∀ m, ag.provider resps.length m = .ok final)
    (hsingle : ∀ r ∈ resps, ∃ tc a, r.tool_calls = [tc] ∧ resolveArgs pa tc = some a)
    (hend : final.tool_calls = [])
    (hcontent : final.content ≠ "") :
    histLenAt (runAgentLoop pa ag opts st) opts.session_key =
      some ((st opts.session_key).history.length + 2 + 2 * resps.length) := by
  have hscript0 : ∀ (i : Nat) (hi : i < resps.length) (m : List Msg),
      ag.provider (0 + i) m = .ok (resps.get ⟨i, hi⟩) := by
    intro i hi m
    simpa using hscript i hi m
  have hfinal0 : ∀ m, ag.provider (0 + resps.length) m = .ok final := by
    intro m
    simpa using hfinal m
  obtain ⟨msgs', st', heq, hlen⟩ := runIter_script pa ag opts hnh resps final 0 ag.max_iterations
    (ag.build_messages (st opts.session_key).history (st opts.session_key).summary
      opts.user_message opts.channel opts.chat_id)
    (addMsgStore st opts.session_key "user" opts.user_message)
    none hn hscript0 hfinal0 hsingle hend
  unfold runAgentLoop
  simp only [hnh, Bool.false_eq_true, if_false, ite_false, hsum]
  rw [heq]
  simp only [histLenAt, hcontent, hnh, Bool.false_eq_true, if_false, ite_false]
  rw [addMsgStore_at]
  simp only [List.length_append, List.length_cons, List.length_nil, Option.some.injEq]
  rw [hlen, addMsgStore_at]
  simp only [List.length_append, List.length_cons, List.length_nil]
  omega

/-- C4 witness: the amended growth law at a concrete single-tool-call
run: 0 initial messages grow to `0 + 2 + 2 * 1`. -/
theorem C4_history_growth_witness :
    histLenAt (runAgentLoop (fun _ => none) agW4 opts4 st0) "k" = some (0 + 2 + 2 * 1) := by
  have h := C4_history_growth (fun _ => none) agW4 opts4 st0 [rW] rf rfl rfl (by decide)
    (fun i hi m => by
      have h0 : i = 0 := Nat.lt_one_iff.mp hi
      subst h0
      rfl)
    (fun m => rfl)
    (by
      intro r hr
      simp only [List.mem_singleton] at hr
      subst hr
      exact ⟨tcA, (default : ArgsMap), rfl, rfl⟩)
    rfl (by decide)
  exact h

/-- C5: `_maybe_summarize` does nothing below the 20-message threshold;
at or above it, on provider success the stored history becomes exactly
the 4 most recent messages and a prior summary is kept as a prefix
followed by a blank-line separator and the new summary text; a provider
failure is caught and leaves the session unchanged (the function is
total — no failure propagates to the caller). -/
theorem C5_summarization_policy (ag : Agent) (c : Nat) (key : String) (st : Store) :
    ((st key).history.length < summarizeThreshold → maybeSummarize ag c key st = st)
    ∧ (summarizeThreshold ≤ (st key).history.length →
        (∀ e, ag.provider c
            [{ role := "user",
               content := mkSummaryPrompt ((st key).history.take ((st key).history.length - 4)),
               tool_calls := [], tool_call_id := "" }] = .error e →
          maybeSummarize ag c key st = st)
        ∧ (∀ r, ag.provider c
            [{ role := "user",
               content := mkSummaryPrompt ((st key).history.take ((st key).history.length - 4)),
               tool_calls := [], tool_call_id := "" }] = .ok r →
            ((maybeSummarize ag c key st) key).history =
              (st key).history.drop ((st key).history.length - 4)
            ∧ ((maybeSummarize ag c key st) key).history.length = 4
            ∧ ((st key).summary ≠ "" →
                ((maybeSummarize ag c key st) key).summary = (st key).summary ++ "\n\n" ++ r.content))) := by
  constructor
  · intro h
    simp [maybeSummarize, h]
  · intro h
    have hlt : ¬ (st key).history.length < summarizeThreshold := by omega
    have h20 : 20 ≤ (st key).history.length := h
    have htk : (st key).history.take ((st key).history.length - 4) ≠ [] := by
      intro hnil
      have hl := congrArg List.length hnil
      simp only [List.length_take, List.length_nil] at hl
      omega
    constructor
    · intro e he
      simp [maybeSummarize, hlt, htk, he]
    · intro r hr
      refine ⟨?_, ?_, ?_⟩
      · simp [maybeSummarize, hlt, htk, hr, updStore_same]
      · simp [maybeSummarize, hlt, htk, hr, updStore_same]
        omega
      · intro hs
        simp [maybeSummarize, hlt, htk, hr, updStore_same, hs]

/-- C5 witness: a 20-message session with prior summary `"old"` is cut
to 4 messages and its summary becomes `"old\n\nnew"`. -/
theorem C5_summarization_policy_witness :
    ((maybeSummarize ag5 0 "k" st5) "k").history.length = 4
    ∧ ((maybeSummarize ag5 0 "k" st5) "k").summary = "old" ++ "\n\n" ++ "new" := by
  have h := (C5_summarization_policy ag5 0 "k" st5).2 (by decide)
  have h2 := h.2 { content := "new", tool_calls := [], usage := none, finish_reason := "stop" } rfl
  exact ⟨h2.2.1, h2.2.2 (by decide)⟩

/-- C6 counterexample: a chat call answered with HTTP 429 and the quota
body never reaches the friendly translation — 429 is classified
retryable, so after the retry budget the raised message is
`"Codex API error 429: <body>"`, which does not contain `"usage limit"`
(the body has only `usage_limit_reached`) and carries no ETA. -/
theorem C6_counterexample :
    codexChat 0 (fun _ => .failure 429 body429) =
      (.error (.runtime ("Codex API error 429: " ++ raw429)), 4, [1, 2, 4])
    ∧ strContains ("Codex API error 429: " ++ raw429) "usage limit" = false := by
  constructor
  · set_option maxRecDepth 100000 in decide
  · set_option maxRecDepth 100000 in decide

/-- C6 (amended): a chat call answered with a non-retryable status
(400 here) and body code `usage_limit_reached`, plan `plus` and reset
epoch `T` raises, after a single attempt, a friendly message containing
`"usage limit"` and `"plus"` and the ETA
`max(0, round((T*1000 - now_ms) / 60000))` minutes. -/
theorem C6_usage_limit_friendly_message (nowMs T : Int) (raw : String)
    (hpat : retryPatternMatch raw = false) (hT : T ≠ 0) :
    codexChat nowMs (fun _ => .failure 400
        { raw := raw
          parsed := some { code := "usage_limit_reached", plan_type := "plus", resets_at := some T, message := "" } }) =
      (.error (.runtime ("ChatGPT usage limit reached (plus plan). Try again in ~" ++
        toString (max 0 (pyRoundDiv (T * 1000 - nowMs) 60000)) ++ " min")), 1, [])
    ∧ strContains ("ChatGPT usage limit reached (plus plan). Try again in ~" ++
        toString (max 0 (pyRoundDiv (T * 1000 - nowMs) 60000)) ++ " min") "usage limit" = true
    ∧ strContains ("ChatGPT usage limit reached (plus plan). Try again in ~" ++
        toString (max 0 (pyRoundDiv (T * 1000 - nowMs) 60000)) ++ " min") "plus" = true := by
  refine ⟨?_, ?_, ?_⟩
  · have hc : strContains "usage_limit_reached" "usage_limit" = true := by decide
    simp [codexChat, MAX_RETRIES, chatGo, streamRequest, isRetryable, hpat, friendlyError, hT, hc]
  · exact strContains_append_left _ " min" _
      (strContains_append_left _ _ _ (by decide))
  · exact strContains_append_left _ " min" _
      (strContains_append_left _ _ _ (by decide))

/-- C6 witness: the friendly quota message at `now = 0` and reset epoch
`1760000000`. -/
theorem C6_usage_limit_friendly_message_witness :
    codexChat 0 (fun _ => .failure 400
        { raw := "x"
          parsed := some { code := "usage_limit_reached", plan_type := "plus", resets_at := some 1760000000, message := "" } }) =
      (.error (.runtime ("ChatGPT usage limit reached (plus plan). Try again in ~" ++
        toString (max 0 (pyRoundDiv (1760000000 * 1000 - 0) 60000)) ++ " min")), 1, []) :=
  (C6_usage_limit_friendly_message 0 1760000000 "x" (by decide) (by decide)).1

/-- C7: when the provider call of an iteration raises, the loop returns
immediately with the synthesized text — after exactly that one provider
call, regardless of remaining iterations, so the engine performs no
retry — and the text is the model-guidance message (naming the
configured model and pointing at reconfiguration) when the error text
contains `"404"` or (lower-cased) `"model"`, else the generic
provider-error message. -/
theorem C7_provider_error_terminates (pa : String → Option ArgsMap) (ag : Agent) (opts : Opts)
    (n c : Nat) (msgs : List Msg) (st : Store) (last : Option LLMResp) (e : String)
    (h : ag.provider c msgs = .error e) :
    runIter pa ag opts (n + 1) c msgs st last = .ok (provErrText ag.model e, msgs, st, c + 1)
    ∧ ((strContains e "404" || strContains (strLower e) "model") = true →
        provErrText ag.model e =
          "Model error: " ++ e ++ "\n\nCurrent model: " ++ ag.model ++
            ". Use /model to check, or re-run `pytoclaw onboard` to reconfigure.")
    ∧ ((strContains e "404" || strContains (strLower e) "model") = false →
        provErrText ag.model e = "LLM provider error: " ++ e) := by
  refine ⟨by simp [runIter, h], ?_, ?_⟩
  · intro hb
    simp [provErrText, hb]
  · intro hb
    simp [provErrText, hb]

/-- C7 witness: a provider raising `"boom 404"` on the first iteration
ends the turn with the synthesized message after one call. -/
theorem C7_provider_error_terminates_witness :
    runIter (fun _ => none) ag7 opts4 1 0 [] st0 none =
      .ok (provErrText ag7.model "boom 404", [], st0, 1) :=
  (C7_provider_error_terminates (fun _ => none) ag7 opts4 0 0 [] st0 none "boom 404" rfl).1

/-- C8 counterexample: with `no_history = true`, two stores that differ
only in the stored summary produce different final texts (`"Shi"` vs
`"hi"`) — `get_summary` is fetched unconditionally (loop.py line 123)
and does influence the messages built, contradicting the claim. -/
theorem C8_counterexample :
    resultText (runAgentLoop (fun _ => none) ag8 opts8 stS) = some "Shi"
    ∧ resultText (runAgentLoop (fun _ => none) ag8 opts8 stE) = some "hi"
    ∧ stS "k" = { history := [], summary := "S" }
    ∧ stE "k" = { history := [], summary := "" }
    ∧ opts8.no_history = true :=
  ⟨rfl, rfl, rfl, rfl, rfl⟩

/-- C8 (amended): with `no_history = true` the engine treats the
history as empty and (with summarization disabled) writes nothing to
the session store — the final store is the initial one, and the outcome
is independent of the stored history — but the stored summary is still
fetched and still feeds context construction. -/
theorem C8_no_history_amended (pa : String → Option ArgsMap) (ag : Agent) (opts : Opts) (st : Store)
    (h : opts.no_history = true) (hs : opts.enable_summary = false) :
    (match runAgentLoop pa ag opts st with
      | .ok (_, st') => st' = st
      | .error _ => True)
    ∧ ∀ hist : List Msg,
        resultText (runAgentLoop pa ag opts
          (updStore st opts.session_key { history := hist, summary := (st opts.session_key).summary })) =
          resultText (runAgentLoop pa ag opts st) := by
  constructor
  · unfold runAgentLoop
    simp only [h, if_true, ite_true, hs, if_false, ite_false, Bool.false_eq_true]
    have hmap := runIter_no_history pa ag opts h ag.max_iterations 0
      (ag.build_messages [] (st opts.session_key).summary opts.user_message opts.channel opts.chat_id)
      st st none
    cases hv : runIter pa ag opts ag.max_iterations 0
        (ag.build_messages [] (st opts.session_key).summary opts.user_message opts.channel opts.chat_id)
        st none with
    | error e => simp [hv]
    | ok q =>
        obtain ⟨t, m, s2, c⟩ := q
        rw [hv] at hmap
        simp only [Except.map] at hmap
        have hs2 : s2 = st := by
          injection hmap with h1
          exact congrArg (fun p => p.2.2.1) h1
        simp only [hv]
        by_cases ht : t = ""
        · simp [ht, hs2]
        · simp [ht, h, hs2]
  · intro hist
    unfold runAgentLoop
    simp only [h, if_true, ite_true, hs, Bool.false_eq_true, if_false, ite_false, updStore_same]
    have hmap := runIter_no_history pa ag opts h ag.max_iterations 0
      (ag.build_messages [] (st opts.session_key).summary opts.user_message opts.channel opts.chat_id)
      (updStore st opts.session_key { history := hist, summary := (st opts.session_key).summary })
      st none
    rw [hmap]
    cases hv : runIter pa ag opts ag.max_iterations 0
        (ag.build_messages [] (st opts.session_key).summary opts.user_message opts.channel opts.chat_id)
        st none with
    | error e => simp [Except.map, resultText]
    | ok q =>
        obtain ⟨t, m, s2, c⟩ := q
        by_cases ht : t = ""
        · simp [Except.map, resultText, ht]
        · simp [Except.map, resultText, ht, h]

/-- C8 witness: the history-independence branch at a concrete run. -/
theorem C8_no_history_amended_witness :
    resultText (runAgentLoop (fun _ => none) ag8 opts8
        (updStore stS "k" { history := [msgU], summary := "S" })) =
      resultText (runAgentLoop (fun _ => none) ag8 opts8 stS) :=
  (C8_no_history_amended (fun _ => none) ag8 opts8 stS rfl rfl).2 [msgU]

/-- C9 counterexample: a tool call whose serialized arguments string is
`"not json"` makes the turn fail with an escaping exception: the run
returns the error `argsParseError "not json"` and no synthesized final
text (`resultText` is `none`) — the `json.loads` at loop.py line 175 is
outside every `try`. -/
theorem C9_counterexample :
    escapedArgsError (runAgentLoop (fun _ => none) ag9 opts4 st0) = some "not json"
    ∧ resultText (runAgentLoop (fun _ => none) ag9 opts4 st0) = none :=
  ⟨rfl, rfl⟩

/-- C9 (amended): when the first tool call of the first response carries
a serialized arguments string the JSON library rejects, the exception
escapes `_run_agent_loop` as `argsParseError` — no synthesized message
is produced; only the outer bus loop's blanket handler would catch it. -/
theorem C9_args_parse_escapes (pa : String → Option ArgsMap) (ag : Agent) (opts : Opts)
    (st : Store) (k : Nat) (r : LLMResp) (tc : ToolCallV) (rest : List ToolCallV) (f : FunctionCallV)
    (hmax : ag.max_iterations = k + 1)
    (hprov : ∀ m, ag.provider 0 m = .ok r)
    (htc : r.tool_calls = tc :: rest)
    (hf : tc.function = some f)
    (hargs : f.arguments ≠ "")
    (hpa : pa f.arguments = none) :
    runAgentLoop pa ag opts st = .error (.argsParseError f.arguments) := by
  have hres : resolveArgs pa tc = none := by simp [resolveArgs, hf, hargs, hpa]
  have hstr : argStrOf tc = f.arguments := by simp [argStrOf, hf]
  have hne : r.tool_calls ≠ [] := by simp [htc]
  unfold runAgentLoop
  rw [hmax]
  simp only [runIter, hprov, hne, if_neg hne, htc]
  simp [processToolCalls, hres, hstr]

/-- C9 witness: the escaping parse error at the concrete `ag9` run. -/
theorem C9_args_parse_escapes_witness :
    runAgentLoop (fun _ => none) ag9 opts4 st0 = .error (.argsParseError "not json") := by
  have h := C9_args_parse_escapes (fun _ => none) ag9 opts4 st0 0
    { content := "", tool_calls := [tc9], usage := none, finish_reason := "tool_calls" }
    tc9 [] { name := "f", arguments := "not json" }
    rfl (fun m => rfl) rfl rfl (by decide) rfl
  exact h

/-- C10: with `max_iterations = 0` the loop body never runs, the
`for`/`else` exhaustion branch reads the never-assigned `response`
local, and the call fails with the unbound-variable error instead of
returning `options.default_response` or the "(max iterations reached)"
marker. -/
theorem C10_zero_iterations (pa : String → Option ArgsMap) (ag : Agent) (opts : Opts) (st : Store)
    (h : ag.max_iterations = 0) :
    runAgentLoop pa ag opts st = .error .unboundResponse := by
  unfold runAgentLoop
  rw [h]
  simp [runIter]

/-- C10 witness: the unbound-variable failure at a concrete agent with
`max_iterations = 0`. -/
theorem C10_zero_iterations_witness :
    runAgentLoop (fun _ => none) ag10 opts4 st0 = .error .unboundResponse :=
  C10_zero_iterations (fun _ => none) ag10 opts4 st0 rfl

end PytoClaw
